import Mathlib

/-!
Verification development for the canvas layer-compositing renderer
(src/src/canvasrenderer.js).

Modelling conventions.

JavaScript numbers are modelled as rationals: every arithmetic operation the
renderer itself performs (gradient sector interpolation, rectangle
intersection, rounding, the run-building loop) is exact rational arithmetic.

External collaborators (the rasterization backend, the manual blend registry,
the filter registry, the native-blend capability table obtained from
blend.getNativeModes(), image loading, and the affine transform utility's
trigonometry) are gathered in an explicit `Env` record.  The renderer source
only ever calls them; it never inspects their results beyond what is modelled
here.  In particular `cosd`/`sind` stand for the cosine/sine (of an angle in
degrees) used by ctx.rotate(util.radians r) and util.transform().rotate(r).

Fallible code returns `Except JsError`: a JavaScript `throw` is `.error`,
and a callback invocation `callback(null, v)` is `.ok v`.  The async
pipelines (async.compose, async.map) in this file run their stages strictly
sequentially on already-computed data, so they are embedded as sequential
composition in the Except monad; async.compose applies its argument list
right to left, hence `processLayers` runs load, then mask, then filters, and
the render pipe built with unshift in CanvasRenderer.merge executes the
flushed run lists in chronological flush order.
-/

/-- Errors a render can raise: `typeError` for a JavaScript TypeError
(property access on null/undefined, calling undefined), and the renderer's
own `new Error('No blend mode named ...')` from mergeManualBlend. -/
inductive JsError where
  | typeError
  | noSuchBlendMode (name : String)
deriving DecidableEq

/-- A rectangle with rational coordinates, as produced by transformRect and
rectIntersect. -/
structure Rect where
  x : ℚ
  y : ℚ
  width : ℚ
  height : ℚ
deriving DecidableEq

/-- The integer-rounded rectangle produced by calcLayerRect
(Math.round origin, Math.ceil size). -/
structure IRect where
  x : ℤ
  y : ℤ
  width : ℤ
  height : ℤ
deriving DecidableEq

/-- A 2D affine transform in canvas convention: the matrix (a b c d e f)
maps (x, y) to (a x + c y + e, b x + d y + f).  This is the state of a 2D
context's current transform and also the representation used by the external
util.transform() object. -/
structure Affine where
  a : ℚ
  b : ℚ
  c : ℚ
  d : ℚ
  e : ℚ
  f : ℚ
deriving DecidableEq

/-- The identity transform. -/
def Affine.idMat : Affine := ⟨1, 0, 0, 1, 0, 0⟩

/-- Canvas-style composition: (m.mul n).apply p = m.apply (n.apply p). -/
def Affine.mul (m n : Affine) : Affine :=
  ⟨m.a * n.a + m.c * n.b, m.b * n.a + m.d * n.b,
   m.a * n.c + m.c * n.d, m.b * n.c + m.d * n.d,
   m.a * n.e + m.c * n.f + m.e, m.b * n.e + m.d * n.f + m.f⟩

/-- Apply an affine transform to a point (util.transform().transformPoint). -/
def Affine.apply (m : Affine) (p : ℚ × ℚ) : ℚ × ℚ :=
  (m.a * p.1 + m.c * p.2 + m.e, m.b * p.1 + m.d * p.2 + m.f)

/-- ctx.translate / t.translate: post-multiply by a translation. -/
def Affine.translateBy (m : Affine) (x y : ℚ) : Affine := m.mul ⟨1, 0, 0, 1, x, y⟩

/-- ctx.scale / t.scale: post-multiply by a scale. -/
def Affine.scaleBy (m : Affine) (x y : ℚ) : Affine := m.mul ⟨x, 0, 0, y, 0, 0⟩

/-- ctx.rotate(util.radians deg) / t.rotate(deg): post-multiply by a rotation
of `deg` degrees, with the cosine/sine supplied by the external transform
utility (see Env). -/
def Affine.rotateBy (cosd sind : ℚ → ℚ) (m : Affine) (deg : ℚ) : Affine :=
  m.mul ⟨cosd deg, sind deg, -(sind deg), cosd deg, 0, 0⟩

/-- A pixel buffer (html canvas or ImageData): dimensions plus abstract pixel
content of type β.  Pixel bytes are never interpreted by the renderer. -/
structure Buffer (β : Type) where
  width : ℚ
  height : ℚ
  data : β
deriving DecidableEq

/-- One entry of a layer's filter chain: {name, options}. -/
structure FilterSpec (δ : Type) where
  name : String
  options : δ
deriving DecidableEq

/-- The layerOptions record passed to a manual blend function:
{data, width, height, opacity, dx, dy}. -/
structure BlendOptions (β : Type) where
  data : β
  width : ℤ
  height : ℤ
  opacity : ℚ
  dx : ℤ
  dy : ℤ

/-- A layer's mask: itself a canvas (width, height and a layer list).  The
mask's own layers are only recursively rendered through the orchestrator
(Env.renderBW), so their element type μ stays abstract here; processMask
itself inspects only mask.layers.length and sets mask.width/height. -/
structure MaskCanvas (μ : Type) where
  width : ℚ
  height : ℚ
  layers : List μ

/-- A layer of an ImageCanvas, with the fields canvasrenderer.js reads:
content (dispatched on only by the external loaders), opacity, blendmode,
the transform fields, an optional mask and a filter chain. -/
structure Layer (σ δ μ : Type) where
  content : σ
  opacity : ℚ
  blendmode : String
  tx : ℚ
  ty : ℚ
  sx : ℚ
  sy : ℚ
  rot : ℚ
  flip_h : Bool
  flip_v : Bool
  mask : Option (MaskCanvas μ)
  filters : List (FilterSpec δ)

/-- An ImageCanvas: pixel dimensions and an ordered layer stack
(index 0 = bottommost). -/
structure ICanvas (σ δ μ : Type) where
  width : ℚ
  height : ℚ
  layers : List (Layer σ δ μ)

/-- The per-render placement record built by getLayerData: the resolved
raster, the centering offset, and the fields copied from the Layer. -/
structure LayerData (β : Type) where
  img : Buffer β
  x : ℚ
  y : ℚ
  opacity : ℚ
  blendmode : String
  tx : ℚ
  ty : ℚ
  sx : ℚ
  sy : ℚ
  rot : ℚ
  flip_h : Bool
  flip_v : Bool
deriving DecidableEq

/-- The drawing state a 2D context carries into ctx.drawImage: the current
transform, globalAlpha and globalCompositeOperation. -/
structure CtxState where
  transform : Affine
  alpha : ℚ
  op : String

/-- The gradient spec carried by a gradient layer: data.type, data.rotation,
data.spread, data.startColor, data.endColor (optional fields are absent when
the JS object lacks them). -/
structure GradientSpecData where
  gtype : Option String
  rotation : Option ℚ
  spread : Option ℚ
  startColor : String
  endColor : String
deriving DecidableEq

/-- The geometric form of a generated gradient: either
createRadialGradient(cx, cy, 0, cx, cy, min(width, height)/2) or
createLinearGradient(x1, y1, x2, y2); `none` endpoints model the case where
the sector cascade assigned no endpoints (rotation below -360, where x1..y2
stay undefined). -/
inductive GradientShape where
  | radial (cx cy innerR outerR : ℚ)
  | linear (endpoints : Option (ℚ × ℚ × ℚ × ℚ))
deriving DecidableEq

/-- A gradient's drawable form: shape plus the two color stops added by
addColorStop. -/
structure GradientForm where
  shape : GradientShape
  stop0 : ℚ × String
  stop1 : ℚ × String
deriving DecidableEq

/-- The external collaborators of the renderer.

* cosd, sind: trigonometry of the external transform utility / backend
  (cosine and sine of an angle given in degrees).
* nativeModes: the capability table blend.getNativeModes(); JavaScript
  dictionary lookup of a missing key yields undefined, modelled as `none`.
* blend: the manual blend registry blend[name]; a missing entry is `none`.
  A blend function mutates the out bytes from (base bytes, previous out
  bytes, canvas width, canvas height, layerOptions).
* process: the filter registry process[name]; a filter writes the out bytes
  from (in bytes, previous out bytes, width, height, options).
* load: the content resolver (CanvasRenderer.load lines 48-62): every branch
  delegates to the DOM/backend loaders, so it is one environment function.
* renderBW: the recursive orchestrator call CanvasRenderer.renderBW used by
  processMask on the mask canvas (recursion broken as an env function).
* drawImage: ctx.drawImage(img, x, y) under a context state, returning the
  target's new pixel content.
* blankData: the (transparent) content of a freshly created canvas of the
  given size (document.createElement('canvas')).
* createImageDataFn: ctx.createImageData when the backend has it (`some`,
  yielding a fresh buffer); `none` makes createImageData fall back to
  ctx.getImageData, i.e. a copy of the current pixels (lines 15-21).
* mkMaskOptions: builds the synthetic mask-filter options object
  {data, x: 0, y: 0, width, height} used by processMask. -/
structure Env (β σ δ μ : Type) where
  cosd : ℚ → ℚ
  sind : ℚ → ℚ
  nativeModes : String → Option Bool
  blend : String → Option (β → β → ℚ → ℚ → BlendOptions β → β)
  process : String → Option (β → β → ℚ → ℚ → δ → β)
  load : ICanvas σ δ μ → Layer σ δ μ → Except JsError (Buffer β)
  renderBW : MaskCanvas μ → Except JsError (Buffer β)
  drawImage : β → CtxState → Buffer β → ℚ → ℚ → β
  blankData : ℚ → ℚ → β
  createImageDataFn : Option (ℚ → ℚ → β)
  mkMaskOptions : β → ℚ → ℚ → δ

/-- The default composite operation of a fresh 2D context. -/
def srcOver : String := "source-over"

/-- The type tag selecting a radial gradient. -/
def radialType : String := "radial"

/-- The default gradient type. -/
def linearType : String := "linear"

/-- The name of the synthetic mask filter built by processMask. -/
def maskFilterName : String := "mask"

/-- JavaScript Math.round: round half toward positive infinity. -/
def jsRound (q : ℚ) : ℤ := ⌊q + 1 / 2⌋

/-- createImageData(ctx, w, h) (lines 15-21): a fresh buffer via
ctx.createImageData when available, else ctx.getImageData(0, 0, w, h),
i.e. the context's current pixel content. -/
def createImageDataAt (env : Env β σ δ μ) (current : β) (w h : ℚ) : β :=
  match env.createImageDataFn with
  | some mk => mk w h
  | none => current

/-- rectIntersect (lines 325-336): the intersecting rectangle of two
rectangles, width and height clamped at 0. -/
def rectIntersect (r1 r2 : Rect) : Rect :=
  let right1 := r1.x + r1.width
  let bottom1 := r1.y + r1.height
  let right2 := r2.x + r2.width
  let bottom2 := r2.y + r2.height
  let x := max r1.x r2.x
  let y := max r1.y r2.y
  let w := max (min right1 right2 - x) 0
  let h := max (min bottom1 bottom2 - y) 0
  ⟨x, y, w, h⟩

/-- The five-sector endpoint cascade of CanvasRenderer.generateGradient
(lines 149-174), taking the already-normalized rotation: each sector sweeps
one pair of rectangle edges; the last sector (315 ≤ r) has no upper bound;
a rotation that matches no sector (below 0) leaves the endpoints undefined. -/
def linearGradientEndpoints (width height rotateDegrees : ℚ) : Option (ℚ × ℚ × ℚ × ℚ) :=
  if 0 ≤ rotateDegrees ∧ rotateDegrees < 45 then
    let y1 := height / 2 * (45 - rotateDegrees) / 45
    some (0, y1, width, height - y1)
  else if 45 ≤ rotateDegrees ∧ rotateDegrees < 135 then
    let x1 := width * (rotateDegrees - 45) / (135 - 45)
    some (x1, 0, width - x1, height)
  else if 135 ≤ rotateDegrees ∧ rotateDegrees < 225 then
    let y1 := height * (rotateDegrees - 135) / (225 - 135)
    some (width, y1, 0, height - y1)
  else if 225 ≤ rotateDegrees ∧ rotateDegrees < 315 then
    let x1 := width * (1 - (rotateDegrees - 225) / (315 - 225))
    some (x1, height, width - x1, 0)
  else if 315 ≤ rotateDegrees then
    let y1 := height - height / 2 * (rotateDegrees - 315) / (360 - 315)
    some (0, y1, width, height - y1)
  else
    none

/-- CanvasRenderer.generateGradient, geometric part (lines 127-186): the
gradient's drawable form from the canvas-or-layer size and the gradient
spec.  data.type || 'linear' and data.rotation || 0 model the JS defaulting
(the empty string and 0 are falsy). -/
def generateGradientForm (width height : ℚ) (data : GradientSpecData) : GradientForm :=
  let cx := width / 2
  let cy := height / 2
  let gtype :=
    match data.gtype with
    | some t => if t = "" then linearType else t
    | none => linearType
  let rotateDegrees0 := data.rotation.getD 0
  let shape :=
    if gtype = radialType then
      GradientShape.radial cx cy 0 (min width height / 2)
    else
      let rotateDegrees :=
        if rotateDegrees0 < 0 then rotateDegrees0 + 360 else rotateDegrees0
      GradientShape.linear (linearGradientEndpoints width height rotateDegrees)
  { shape := shape
    stop0 := (data.spread.getD 0, data.startColor)
    stop1 := (1, data.endColor) }

/-- transformLayer (lines 257-279): mutate the context transform for a
layer's placement.  translate, scale, rotate and flip are each applied only
when non-identity, in the source's order: translate(tx, ty); then, when
scale, rotation or flip is non-identity, a canvas-center pivoted group of
rotate, scale, flip. -/
def transformLayer (env : Env β σ δ μ) (iCanvas : ICanvas σ δ μ)
    (layer : LayerData β) (ctx : Affine) : Affine :=
  let ctx :=
    if layer.tx ≠ 0 ∨ layer.ty ≠ 0 then ctx.translateBy layer.tx layer.ty else ctx
  if layer.sx ≠ 1 ∨ layer.sy ≠ 1 ∨ layer.rot ≠ 0 ∨ layer.flip_h ∨ layer.flip_v then
    let ctx := ctx.translateBy (iCanvas.width / 2) (iCanvas.height / 2)
    let ctx :=
      if layer.rot ≠ 0 then Affine.rotateBy env.cosd env.sind ctx layer.rot else ctx
    let ctx :=
      if layer.sx ≠ 1 ∨ layer.sy ≠ 1 then ctx.scaleBy layer.sx layer.sy else ctx
    let ctx :=
      if layer.flip_h ∨ layer.flip_v then
        ctx.scaleBy (if layer.flip_h then -1 else 1) (if layer.flip_v then -1 else 1)
      else ctx
    ctx.translateBy (-(iCanvas.width / 2)) (-(iCanvas.height / 2))
  else ctx

/-- transformRect (lines 283-322): transform the four corners of the layer's
natural rectangle by the canvas-center offset + translation + image-center
pivoted rotate/scale, then take the axis-aligned bounding rectangle. -/
def transformRect (env : Env β σ δ μ) (iCanvas : ICanvas σ δ μ)
    (layer : LayerData β) : Rect :=
  let width := layer.img.width
  let height := layer.img.height
  let p1 : ℚ × ℚ := (0, 0)
  let p2 : ℚ × ℚ := (width, 0)
  let p3 : ℚ × ℚ := (0, height)
  let p4 : ℚ × ℚ := (width, height)
  let t := Affine.idMat
  let t := t.translateBy ((iCanvas.width - width) / 2) ((iCanvas.height - height) / 2)
  let t := t.translateBy layer.tx layer.ty
  let t := t.translateBy (width / 2) (height / 2)
  let t := Affine.rotateBy env.cosd env.sind t layer.rot
  let t := t.scaleBy layer.sx layer.sy
  let t := t.translateBy (-(width / 2)) (-(height / 2))
  let q1 := t.apply p1
  let q2 := t.apply p2
  let q3 := t.apply p3
  let q4 := t.apply p4
  let minx := min (min (min q1.1 q2.1) q3.1) q4.1
  let maxx := max (max (max q1.1 q2.1) q3.1) q4.1
  let miny := min (min (min q1.2 q2.2) q3.2) q4.2
  let maxy := max (max (max q1.2 q2.2) q3.2) q4.2
  ⟨minx, miny, maxx - minx, maxy - miny⟩

/-- calcLayerRect (lines 340-347): the transformed bounding rectangle
intersected with the canvas bounds, origin rounded, size ceiled. -/
def calcLayerRect (env : Env β σ δ μ) (iCanvas : ICanvas σ δ μ)
    (layer : LayerData β) : IRect :=
  let rect := rectIntersect (transformRect env iCanvas layer)
    ⟨0, 0, iCanvas.width, iCanvas.height⟩
  ⟨jsRound rect.x, jsRound rect.y, ⌈rect.width⌉, ⌈rect.height⌉⟩

/-- getTransformedLayerData (lines 350-359): draw the layer with its
placement transform into a fresh rect-sized canvas whose context is first
translated by (-rect.x, -rect.y), and read back the pixel data. -/
def getTransformedLayerData (env : Env β σ δ μ) (iCanvas : ICanvas σ δ μ)
    (layer : LayerData β) (rect : IRect) : β :=
  let canvasData := env.blankData (rect.width : ℚ) (rect.height : ℚ)
  let ctx := Affine.idMat.translateBy (-(rect.x : ℚ)) (-(rect.y : ℚ))
  let ctx := transformLayer env iCanvas layer ctx
  env.drawImage canvasData ⟨ctx, 1, srcOver⟩ layer.img layer.x layer.y

/-- CanvasRenderer.singleLayerWithOpacity (lines 398-413): draw one layer,
with its transform and (when ≠ 1) its opacity, onto a fresh canvas-sized
buffer with the default composite operation. -/
def singleLayerWithOpacity (env : Env β σ δ μ) (iCanvas : ICanvas σ δ μ)
    (layer : LayerData β) : Buffer β :=
  let canvasData := env.blankData iCanvas.width iCanvas.height
  let ctx := transformLayer env iCanvas layer Affine.idMat
  let alpha := if layer.opacity ≠ 1 then layer.opacity else 1
  ⟨iCanvas.width, iCanvas.height,
    env.drawImage canvasData ⟨ctx, alpha, srcOver⟩ layer.img layer.x layer.y⟩

/-- CanvasRenderer.mergeNativeBlend (lines 417-436): draw each layer of a
native run onto the shared canvas, in order, each inside save/restore with
its transform, opacity (when ≠ 1) and its blendmode as the composite
operation (left at the default for 'source-over'). -/
def mergeNativeBlend (env : Env β σ δ μ) (iCanvas : ICanvas σ δ μ)
    (layerData : List (LayerData β)) (canvas : Buffer β) : Buffer β :=
  layerData.foldl (fun c layer =>
    let ctx := transformLayer env iCanvas layer Affine.idMat
    let alpha := if layer.opacity ≠ 1 then layer.opacity else 1
    let op := if layer.blendmode ≠ srcOver then layer.blendmode else srcOver
    { c with data := env.drawImage c.data ⟨ctx, alpha, op⟩ layer.img layer.x layer.y })
    canvas

/-- The loop body of CanvasRenderer.mergeManualBlend (lines 374-390),
threading the loop index i and the baseData/outData pair.  A layer whose
calcLayerRect has zero width or height is skipped (the index still
advances); otherwise, when i > 0 the two ImageData buffers are swapped, the
transformed layer pixels are extracted, and the registered blend function
writes the new out content — a missing registry entry throws. -/
def manualLoop (env : Env β σ δ μ) (iCanvas : ICanvas σ δ μ) (width height : ℚ) :
    List (LayerData β) → Nat → β → β → Except JsError β
  | [], _, _, outData => .ok outData
  | layer :: rest, i, baseData, outData =>
    let rect := calcLayerRect env iCanvas layer
    if 0 < rect.width ∧ 0 < rect.height then
      let baseData2 := if 0 < i then outData else baseData
      let outData2 := if 0 < i then baseData else outData
      let blendData := getTransformedLayerData env iCanvas layer rect
      let layerOptions : BlendOptions β :=
        ⟨blendData, rect.width, rect.height, layer.opacity, rect.x, rect.y⟩
      match env.blend layer.blendmode with
      | none => .error (.noSuchBlendMode layer.blendmode)
      | some fb =>
        manualLoop env iCanvas width height rest (i + 1) baseData2
          (fb baseData2 outData2 width height layerOptions)
    else
      manualLoop env iCanvas width height rest (i + 1) baseData outData

/-- CanvasRenderer.mergeManualBlend (lines 366-394): baseData is the current
canvas pixels, outData comes from createImageData; after the loop the final
outData is written back onto the canvas with putImageData — unconditionally,
even if no layer was blended. -/
def mergeManualBlend (env : Env β σ δ μ) (iCanvas : ICanvas σ δ μ)
    (layerData : List (LayerData β)) (canvas : Buffer β) : Except JsError (Buffer β) :=
  let width := iCanvas.width
  let height := iCanvas.height
  let baseData := canvas.data
  let outData := createImageDataAt env canvas.data width height
  match manualLoop env iCanvas width height layerData 0 baseData outData with
  | .error e => .error e
  | .ok out => .ok { canvas with data := out }

/-- The loop body of CanvasRenderer.processImage (lines 206-214), threading
the index i and the inData/outData pair: from i = 1 on the two ImageData
buffers are swapped before the filter runs; each filter writes the out
content from (in bytes, previous out bytes, width, height, options);
process[filter.name] being undefined is a TypeError. -/
def processLoop (env : Env β σ δ μ) (width height : ℚ) :
    List (FilterSpec δ) → Nat → β → β → Except JsError β
  | [], _, _, outData => .ok outData
  | f :: fs, i, inData, outData =>
    let inData2 := if 0 < i then outData else inData
    let outData2 := if 0 < i then inData else outData
    match env.process f.name with
    | none => .error .typeError
    | some g =>
      processLoop env width height fs (i + 1) inData2
        (g inData2 outData2 width height f.options)

/-- CanvasRenderer.processImage (lines 193-219): an empty chain returns the
passThrough function (the canvas unchanged, no ImageData allocated);
otherwise inData is the canvas pixels, outData comes from createImageData,
the filters run with ping-pong swapping, and the final outData is written
back onto the canvas. -/
def processImage (env : Env β σ δ μ) (filters : List (FilterSpec δ))
    (canvas : Buffer β) : Except JsError (Buffer β) :=
  if filters.length = 0 then .ok canvas
  else
    match processLoop env canvas.width canvas.height filters 0 canvas.data
      (createImageDataAt env canvas.data canvas.width canvas.height) with
    | .error e => .error e
    | .ok out => .ok { canvas with data := out }

/-- CanvasRenderer.processMask (lines 222-239): reads mask.layers
unconditionally — on a null/absent mask this is a TypeError.  A mask with
zero layers is passThrough; otherwise the mask canvas takes the layer
buffer's size, is rendered black-and-white through the orchestrator, and the
result feeds a synthetic 'mask' filter applied through processImage. -/
def processMask (env : Env β σ δ μ) (mask : Option (MaskCanvas μ))
    (canvas : Buffer β) : Except JsError (Buffer β) :=
  match mask with
  | none => .error .typeError
  | some m =>
    if m.layers.length = 0 then .ok canvas
    else
      match env.renderBW { m with width := canvas.width, height := canvas.height } with
      | .error e => .error e
      | .ok c =>
        processImage env
          [⟨maskFilterName, env.mkMaskOptions c.data c.width c.height⟩] canvas

/-- processLayers (lines 243-251): async.compose applies right to left, so a
layer is loaded, then masked, then filtered. -/
def processLayers (env : Env β σ δ μ) (iCanvas : ICanvas σ δ μ)
    (layer : Layer σ δ μ) : Except JsError (Buffer β) :=
  match env.load iCanvas layer with
  | .error e => .error e
  | .ok c =>
    match processMask env layer.mask c with
    | .error e => .error e
    | .ok c2 => processImage env layer.filters c2

/-- pushList inside CanvasRenderer.merge (lines 447-452): flush the current
run list onto the render pipe only when useNative is defined; the runs end
up executing in chronological flush order (unshift onto the pipe +
async.compose's right-to-left application), so a flush prepends the run to
the runs flushed after it. -/
def pushList (useNative : Option Bool) (currentList : List (LayerData β))
    (pipe : List (Bool × List (LayerData β))) : List (Bool × List (LayerData β)) :=
  match useNative with
  | none => pipe
  | some b => (b, currentList) :: pipe

/-- The run-building loop of CanvasRenderer.merge (lines 454-467), with the
loop state (useNative, currentList) as arguments: a new run starts when
useNative is undefined or differs from the current layer's capability
lookup; the final iteration flushes the last run (a no-op when its
capability is undefined). -/
def mergeRuns (tbl : String → Option Bool) :
    Option Bool → List (LayerData β) → List (LayerData β) →
      List (Bool × List (LayerData β))
  | useNative, currentList, [] => pushList useNative currentList []
  | useNative, currentList, layer :: rest =>
    let mode := tbl layer.blendmode
    if useNative = none ∨ useNative ≠ mode then
      pushList useNative currentList (mergeRuns tbl mode [layer] rest)
    else
      mergeRuns tbl mode (currentList ++ [layer]) rest

/-- The full list of capability runs CanvasRenderer.merge builds from the
non-base layers, in execution order. -/
def buildRuns (tbl : String → Option Bool) (rest : List (LayerData β)) :
    List (Bool × List (LayerData β)) :=
  mergeRuns tbl none [] rest

/-- One run of the render pipe: mergeNativeBlend for a native run,
mergeManualBlend for a manual run (line 449). -/
def applyRun (env : Env β σ δ μ) (iCanvas : ICanvas σ δ μ)
    (canvas : Buffer β) (run : Bool × List (LayerData β)) : Except JsError (Buffer β) :=
  if run.1 then .ok (mergeNativeBlend env iCanvas run.2 canvas)
  else mergeManualBlend env iCanvas run.2 canvas

/-- async.compose.apply(null, renderPipe) (line 469): the runs execute
sequentially on the seed canvas, each run's output the next run's input; a
throw aborts the pipe. -/
def runPipe (env : Env β σ δ μ) (iCanvas : ICanvas σ δ μ) :
    List (Bool × List (LayerData β)) → Buffer β → Except JsError (Buffer β)
  | [], canvas => .ok canvas
  | run :: rest, canvas =>
    match applyRun env iCanvas canvas run with
    | .error e => .error e
    | .ok c => runPipe env iCanvas rest c

/-- CanvasRenderer.merge (lines 439-472): seed the output with the
bottommost layer drawn via singleLayerWithOpacity, then run the capability
runs built from the remaining layers.  merge is only reached with at least
two placements; on an empty list layerData[0] is undefined and the renderer
would fail with a TypeError. -/
def merge (env : Env β σ δ μ) (iCanvas : ICanvas σ δ μ) :
    List (LayerData β) → Except JsError (Buffer β)
  | [] => .error .typeError
  | layer :: rest =>
    runPipe env iCanvas (buildRuns env.nativeModes rest)
      (singleLayerWithOpacity env iCanvas layer)

/-- CanvasRenderer.composite (lines 474-485): zero placements deliver the
"no image" signal (null); one placement is drawn directly; more are merged. -/
def composite (env : Env β σ δ μ) (iCanvas : ICanvas σ δ μ)
    (layerData : List (LayerData β)) : Except JsError (Option (Buffer β)) :=
  match layerData with
  | [] => .ok none
  | [layer] => .ok (some (singleLayerWithOpacity env iCanvas layer))
  | _ :: _ :: _ =>
    match merge env iCanvas layerData with
    | .error e => .error e
    | .ok c => .ok (some c)

/-- getLayerData (lines 489-507): pair each layer with its resolved raster
(same length by construction), centering the raster on the canvas and
copying the blend/transform fields. -/
def getLayerData (iCanvas : ICanvas σ δ μ) (layerImages : List (Buffer β)) :
    List (LayerData β) :=
  (iCanvas.layers.zip layerImages).map fun li =>
    { img := li.2
      x := (iCanvas.width - li.2.width) / 2
      y := (iCanvas.height - li.2.height) / 2
      opacity := li.1.opacity
      blendmode := li.1.blendmode
      tx := li.1.tx
      ty := li.1.ty
      sx := li.1.sx
      sy := li.1.sy
      rot := li.1.rot
      flip_h := li.1.flip_h
      flip_v := li.1.flip_v }

/-- async.map over the layers (line 511): order-preserving collection of the
per-layer pipeline results; the first failure aborts the render. -/
def mapExcept (g : α → Except JsError γ) : List α → Except JsError (List γ)
  | [] => .ok []
  | a :: as =>
    match g a with
    | .error e => .error e
    | .ok b =>
      match mapExcept g as with
      | .error e => .error e
      | .ok bs => .ok (b :: bs)

/-- CanvasRenderer.render (lines 510-517): run the per-layer pipeline over
all layers, build the placements, and composite. -/
def render (env : Env β σ δ μ) (iCanvas : ICanvas σ δ μ) :
    Except JsError (Option (Buffer β)) :=
  match mapExcept (processLayers env iCanvas) iCanvas.layers with
  | .error e => .error e
  | .ok imgs => composite env iCanvas (getLayerData iCanvas imgs)

/-! Spec-side definitions, written from the spec's words for refinement
comparison with the source embeddings above. -/

/-- The spec's rectangle-intersection formula (section 4.3):
intersect(r1,r2) = {x: max(x1,x2), y: max(y1,y2),
w: max(0, min(right1,right2)-x), h: max(0, min(bottom1,bottom2)-y)}. -/
def specIntersect (r1 r2 : Rect) : Rect :=
  { x := max r1.x r2.x
    y := max r1.y r2.y
    width := max 0 (min (r1.x + r1.width) (r2.x + r2.width) - max r1.x r2.x)
    height := max 0 (min (r1.y + r1.height) (r2.y + r2.height) - max r1.y r2.y) }

/-- The spec's run partition (section 4.6): the non-base placements,
partitioned into maximal contiguous runs such that every placement in a run
shares the same boolean capability classification, runs kept in original
order. -/
def specRuns (classify : α → Bool) : List α → List (Bool × List α)
  | [] => []
  | a :: rest =>
    match specRuns classify rest with
    | [] => [(classify a, [a])]
    | (b, grp) :: more =>
      if classify a = b then (b, a :: grp) :: more
      else (classify a, [a]) :: (b, grp) :: more

/-- Proof helper: merge an open run (capability b, members cur) into an
already-partitioned tail: it either extends the tail's first group (same
capability) or stands as its own group.  This is the shape of the
run-building loop's state when the remaining layers have already been
partitioned. -/
def specMergeInto (b : Bool) (cur : List α) (runs : List (Bool × List α)) :
    List (Bool × List α) :=
  match runs with
  | [] => [(b, cur)]
  | (c, g) :: more => if b = c then (b, cur ++ g) :: more else (b, cur) :: (c, g) :: more

/-- The spec's placement transform (section 4.3): translate by (tx,ty);
then, when any of scale/rotate/flip is non-identity, a canvas-center pivoted
group of rotate by rot degrees, scale by (sx,sy), and flip by negating the
corresponding scale axis. -/
def specPlacementTransform (env : Env β σ δ μ) (iCanvas : ICanvas σ δ μ)
    (layer : LayerData β) (ctx : Affine) : Affine :=
  let ctx := ctx.translateBy layer.tx layer.ty
  if layer.sx ≠ 1 ∨ layer.sy ≠ 1 ∨ layer.rot ≠ 0 ∨ layer.flip_h ∨ layer.flip_v then
    let ctx := ctx.translateBy (iCanvas.width / 2) (iCanvas.height / 2)
    let ctx := Affine.rotateBy env.cosd env.sind ctx layer.rot
    let ctx := ctx.scaleBy layer.sx layer.sy
    let ctx := ctx.scaleBy (if layer.flip_h then -1 else 1) (if layer.flip_v then -1 else 1)
    ctx.translateBy (-(iCanvas.width / 2)) (-(iCanvas.height / 2))
  else ctx

/-! Concrete instances used by the witness theorems. -/

/-- A concrete environment over Bool pixel content (true = the canvas still
holds its original pixels, false = blank): identity-at-zero trigonometry, a
capability table with one native mode ('screen'), one manual mode
('multiply') and one absent entry ('mystery'), an empty manual blend
registry, an identity filter registry, and a backend that has
createImageData (fresh buffers are blank). -/
def envB : Env Bool Unit Unit Unit :=
  { cosd := fun _ => 1
    sind := fun _ => 0
    nativeModes := fun m =>
      if m = "mystery" then none else if m = "multiply" then some false else some true
    blend := fun _ => none
    process := fun _ => some (fun inD _ _ _ _ => inD)
    load := fun _ _ => .ok ⟨4, 4, true⟩
    renderBW := fun _ => .ok ⟨4, 4, true⟩
    drawImage := fun c _ _ _ _ => c
    blankData := fun _ _ => false
    createImageDataFn := some (fun _ _ => false)
    mkMaskOptions := fun _ _ _ => () }

/-- A 2x2 image buffer with content. -/
def bufT : Buffer Bool := ⟨2, 2, true⟩

/-- A 4x4 canvas with no layers. -/
def iC4 : ICanvas Unit Unit Unit := ⟨4, 4, []⟩

/-- A placement translated fully off the 4x4 canvas (tx = 100): its
calcLayerRect has zero width. -/
def ldOff : LayerData Bool := ⟨bufT, 1, 1, 1, "multiply", 100, 0, 1, 1, 0, false, false⟩

/-- The same off-canvas placement with the unregistered blendmode name. -/
def ldOffMystery : LayerData Bool :=
  ⟨bufT, 1, 1, 1, "mystery", 100, 0, 1, 1, 0, false, false⟩

/-- An on-canvas placement (calcLayerRect 2x2 at (1,1)) whose blendmode name
is registered nowhere. -/
def ldOn : LayerData Bool := ⟨bufT, 1, 1, 1, "mystery", 0, 0, 1, 1, 0, false, false⟩

/-- An on-canvas placement with the native-capable blendmode 'screen'. -/
def ldScreen : LayerData Bool := ⟨bufT, 1, 1, 1, "screen", 0, 0, 1, 1, 0, false, false⟩

/-- An on-canvas placement with the manual blendmode 'multiply'. -/
def ldMult : LayerData Bool := ⟨bufT, 1, 1, 1, "multiply", 0, 0, 1, 1, 0, false, false⟩

/-- A base placement drawn with source-over. -/
def ldBase : LayerData Bool := ⟨bufT, 1, 1, 1, srcOver, 0, 0, 1, 1, 0, false, false⟩

/-- A layer with no mask (mask null) and no filters. -/
def layerNoMask : Layer Unit Unit Unit :=
  ⟨(), 1, srcOver, 0, 0, 1, 1, 0, false, false, none, []⟩

/-- The identity filter function of envB's filter registry. -/
def keepIn : Bool → Bool → ℚ → ℚ → Unit → Bool := fun inD _ _ _ _ => inD

/-- The capability classification of envB's table on the witness layers:
'screen' is native-capable, everything else is not. -/
def classifyB : LayerData Bool → Bool := fun l => l.blendmode == "screen"

/-- The blendmode name that is registered nowhere in envB. -/
def mysteryMode : String := "mystery"

/-! Helper lemmas: concrete bounding rectangles of the witness placements. -/

/-- The off-canvas placement's clipped rectangle has zero width. -/
lemma calcLayerRect_ldOff : calcLayerRect envB iC4 ldOff = ⟨101, 1, 0, 2⟩ := by
  norm_num [calcLayerRect, transformRect, rectIntersect, jsRound, Affine.translateBy,
    Affine.rotateBy, Affine.scaleBy, Affine.mul, Affine.apply, Affine.idMat, envB, iC4, ldOff,
    bufT, min_def, max_def, Int.ceil_intCast]

/-- The off-canvas mystery placement's clipped rectangle has zero width. -/
lemma calcLayerRect_ldOffMystery : calcLayerRect envB iC4 ldOffMystery = ⟨101, 1, 0, 2⟩ := by
  norm_num [calcLayerRect, transformRect, rectIntersect, jsRound, Affine.translateBy,
    Affine.rotateBy, Affine.scaleBy, Affine.mul, Affine.apply, Affine.idMat, envB, iC4,
    ldOffMystery, bufT, min_def, max_def, Int.ceil_intCast]

/-- The on-canvas mystery placement's clipped rectangle is 2x2 at (1,1). -/
lemma calcLayerRect_ldOn : calcLayerRect envB iC4 ldOn = ⟨1, 1, 2, 2⟩ := by
  norm_num [calcLayerRect, transformRect, rectIntersect, jsRound, Affine.translateBy,
    Affine.rotateBy, Affine.scaleBy, Affine.mul, Affine.apply, Affine.idMat, envB, iC4, ldOn,
    bufT, min_def, max_def, Int.ceil_intCast]

/-- In a manual run, the first layer whose clipped rectangle has positive
area and whose blendmode is missing from the manual blend registry makes the
loop throw NoSuchBlendMode; layers before it are either blended (registered)
or skipped (zero area). -/
lemma manualLoop_raises (env : Env β σ δ μ) (iCanvas : ICanvas σ δ μ) (w h : ℚ) :
    ∀ (layers : List (LayerData β)) (i : Nat) (base out : β),
      (∃ l ∈ layers, env.blend l.blendmode = none ∧
        0 < (calcLayerRect env iCanvas l).width ∧ 0 < (calcLayerRect env iCanvas l).height) →
      ∃ m, env.blend m = none ∧
        manualLoop env iCanvas w h layers i base out = .error (.noSuchBlendMode m)
  | [], _, _, _, hex => absurd hex (by simp)
  | l :: rest, i, base, out, hex => by
    rw [manualLoop]
    by_cases hrect : 0 < (calcLayerRect env iCanvas l).width ∧
        0 < (calcLayerRect env iCanvas l).height
    · rw [if_pos hrect]
      cases hbl : env.blend l.blendmode with
      | none => exact ⟨l.blendmode, hbl, rfl⟩
      | some fb =>
        have hex' : ∃ x ∈ rest, env.blend x.blendmode = none ∧
            0 < (calcLayerRect env iCanvas x).width ∧
            0 < (calcLayerRect env iCanvas x).height := by
          rcases hex with ⟨x, hx, hxb, hxw, hxh⟩
          rcases List.mem_cons.1 hx with rfl | hx'
          · rw [hbl] at hxb; exact absurd hxb (by simp)
          · exact ⟨x, hx', hxb, hxw, hxh⟩
        exact manualLoop_raises env iCanvas w h rest (i + 1) _ _ hex'
    · rw [if_neg hrect]
      have hex' : ∃ x ∈ rest, env.blend x.blendmode = none ∧
          0 < (calcLayerRect env iCanvas x).width ∧
          0 < (calcLayerRect env iCanvas x).height := by
        rcases hex with ⟨x, hx, hxb, hxw, hxh⟩
        rcases List.mem_cons.1 hx with rfl | hx'
        · exact absurd ⟨hxw, hxh⟩ hrect
        · exact ⟨x, hx', hxb, hxw, hxh⟩
      exact manualLoop_raises env iCanvas w h rest (i + 1) base out hex'

/-- C8: rectIntersect is commutative in its result, always yields
nonnegative width and height, and equals the spec's intersection formula. -/
theorem c8_rectIntersect_comm_nonneg_formula (r1 r2 : Rect) :
    rectIntersect r1 r2 = rectIntersect r2 r1
    ∧ 0 ≤ (rectIntersect r1 r2).width
    ∧ 0 ≤ (rectIntersect r1 r2).height
    ∧ rectIntersect r1 r2 = specIntersect r1 r2 := by
  refine ⟨?_, ?_, ?_, ?_⟩ <;>
    simp [rectIntersect, specIntersect, max_comm, min_comm, le_max_right]

/-- C3: rendering a canvas with zero layers delivers the "no image" signal
(a null result, modelled as .ok none) to the completion callback and raises
no error. -/
theorem c3_zero_layers_no_image (env : Env β σ δ μ) (iCanvas : ICanvas σ δ μ)
    (h : iCanvas.layers = []) : render env iCanvas = .ok none := by
  simp [render, mapExcept, getLayerData, composite, h]

/-- Witness for c3_zero_layers_no_image at the concrete empty canvas. -/
theorem c3_zero_layers_no_image_witness :
    iC4.layers = [] ∧ render envB iC4 = .ok none :=
  ⟨rfl, c3_zero_layers_no_image envB iC4 rfl⟩

/-- C4 (evaluation at the failing input): a manual-blend run consisting of a
single placement whose clipped bounding rectangle has zero area does not
leave the input buffer's pixels unchanged: the loop skips the placement, but
putImageData still writes the untouched freshly created (blank) output
buffer over the canvas, so the canvas content flips from true (original
pixels) to false (blank). -/
theorem c4_zero_area_run_clears_canvas :
    calcLayerRect envB iC4 ldOff = ⟨101, 1, 0, 2⟩
    ∧ mergeManualBlend envB iC4 [ldOff] ⟨4, 4, true⟩ = .ok ⟨4, 4, false⟩
    ∧ (⟨4, 4, false⟩ : Buffer Bool) ≠ ⟨4, 4, true⟩ := by
  refine ⟨calcLayerRect_ldOff, ?_, by simp⟩
  simp only [mergeManualBlend, manualLoop, calcLayerRect_ldOff, createImageDataAt]
  norm_num [envB]

/-- C2 (counterexample to the claim as stated): a manual-blend run containing
a placement whose blendmode name ('mystery') is absent from the manual blend
registry, but whose clipped rectangle has zero area: rendering raises nothing
and produces an output buffer. -/
theorem c2_counterexample :
    envB.blend mysteryMode = none
    ∧ ldOffMystery.blendmode = mysteryMode
    ∧ mergeManualBlend envB iC4 [ldOffMystery] ⟨4, 4, true⟩ = .ok ⟨4, 4, false⟩ := by
  refine ⟨rfl, rfl, ?_⟩
  simp only [mergeManualBlend, manualLoop, calcLayerRect_ldOffMystery, createImageDataAt]
  norm_num [envB]

/-- C2 (amended): when a manual-blend run contains a placement whose clipped
bounding rectangle has positive area and whose blendmode name is not
registered in the manual blend registry, mergeManualBlend throws a
NoSuchBlendMode error (for some unregistered name) and produces no output
buffer; the error propagates out of the render pipe unretried. -/
theorem c2_unregistered_blendmode_raises (env : Env β σ δ μ) (iCanvas : ICanvas σ δ μ)
    (layerData : List (LayerData β)) (canvas : Buffer β)
    (hex : ∃ l ∈ layerData, env.blend l.blendmode = none ∧
      0 < (calcLayerRect env iCanvas l).width ∧ 0 < (calcLayerRect env iCanvas l).height) :
    ∃ m, env.blend m = none ∧
      mergeManualBlend env iCanvas layerData canvas = .error (.noSuchBlendMode m) := by
  rcases manualLoop_raises env iCanvas iCanvas.width iCanvas.height layerData 0 canvas.data
    (createImageDataAt env canvas.data iCanvas.width iCanvas.height) hex with ⟨m, hm, hloop⟩
  exact ⟨m, hm, by simp [mergeManualBlend, hloop]⟩

/-- Witness for c2_unregistered_blendmode_raises at a concrete on-canvas
placement with the unregistered blendmode. -/
theorem c2_unregistered_blendmode_raises_witness :
    ∃ m, envB.blend m = none ∧
      mergeManualBlend envB iC4 [ldOn] ⟨4, 4, true⟩ = .error (.noSuchBlendMode m) :=
  c2_unregistered_blendmode_raises envB iC4 [ldOn] ⟨4, 4, true⟩
    ⟨ldOn, by simp, rfl, by simp [calcLayerRect_ldOn], by simp [calcLayerRect_ldOn]⟩

/-- Post-multiplying by a zero translation is the identity. -/
lemma Affine.translateBy_zero (m : Affine) : m.translateBy 0 0 = m := by
  simp [Affine.translateBy, Affine.mul]

/-- Post-multiplying by a unit scale is the identity. -/
lemma Affine.scaleBy_one (m : Affine) : m.scaleBy 1 1 = m := by
  simp [Affine.scaleBy, Affine.mul]

/-- Rotating by 0 degrees is the identity when the trigonometry satisfies
cos 0 = 1 and sin 0 = 0. -/
lemma Affine.rotateBy_zero (cosd sind : ℚ → ℚ) (hc : cosd 0 = 1) (hs : sind 0 = 0)
    (m : Affine) : Affine.rotateBy cosd sind m 0 = m := by
  simp [Affine.rotateBy, Affine.mul, hc, hs]

/-- C10: the Mask Stage reads mask.layers before deciding anything, so a
null/absent mask is a TypeError, and the per-layer pipeline of a layer whose
mask is null fails with that TypeError instead of treating it as "no mask". -/
theorem c10_null_mask_type_error (env : Env β σ δ μ) (iCanvas : ICanvas σ δ μ)
    (layer : Layer σ δ μ) (c : Buffer β)
    (hload : env.load iCanvas layer = .ok c) (hmask : layer.mask = none) :
    (∀ c' : Buffer β, processMask env none c' = .error .typeError)
    ∧ processLayers env iCanvas layer = .error .typeError := by
  refine ⟨fun c' => rfl, ?_⟩
  simp [processLayers, hload, hmask, processMask]

/-- Witness for c10_null_mask_type_error at a concrete maskless layer. -/
theorem c10_null_mask_type_error_witness :
    (∀ c' : Buffer Bool, processMask envB none c' = .error .typeError)
    ∧ processLayers envB iC4 layerNoMask = .error .typeError :=
  c10_null_mask_type_error envB iC4 layerNoMask ⟨4, 4, true⟩ rfl rfl

/-- C7: an empty filter chain is the identity on the layer's buffer (the
passThrough function, no ImageData allocated), and a chain of length 2
ping-pongs the two buffers: filter 1 reads the original pixels (writing the
createImageData buffer), filter 2 reads filter 1's output (writing the
buffer that held the original pixels), and filter 2's output becomes the
layer's final pixels. -/
theorem c7_filter_chain_identity_and_pingpong (env : Env β σ δ μ) (c : Buffer β)
    (f1 f2 : FilterSpec δ) (g1 g2 : β → β → ℚ → ℚ → δ → β)
    (h1 : env.process f1.name = some g1) (h2 : env.process f2.name = some g2) :
    (∀ c' : Buffer β, processImage env [] c' = .ok c')
    ∧ processImage env [f1, f2] c = .ok ⟨c.width, c.height,
        g2 (g1 c.data (createImageDataAt env c.data c.width c.height)
            c.width c.height f1.options)
          c.data c.width c.height f2.options⟩ := by
  refine ⟨fun c' => rfl, ?_⟩
  simp [processImage, processLoop, h1, h2]

/-- Witness for c7_filter_chain_identity_and_pingpong with the identity
filter registered under both names. -/
theorem c7_filter_chain_identity_and_pingpong_witness :
    (∀ c' : Buffer Bool, processImage envB [] c' = .ok c')
    ∧ processImage envB [⟨srcOver, ()⟩, ⟨maskFilterName, ()⟩] bufT = .ok ⟨bufT.width, bufT.height,
        keepIn (keepIn bufT.data (createImageDataAt envB bufT.data bufT.width bufT.height)
            bufT.width bufT.height ())
          bufT.data bufT.width bufT.height ()⟩ :=
  c7_filter_chain_identity_and_pingpong envB bufT ⟨srcOver, ()⟩ ⟨maskFilterName, ()⟩
    keepIn keepIn rfl rfl

/-- C6: the placement transform applies the translation (tx, ty) first and
then, exactly when one of scale, rotation or flip is non-identity, the
canvas-center pivoted group of rotate, scale, flip, in that order — i.e. it
coincides with the spec's description of the transform; and a layer with
identity parameters leaves the context transform unchanged. -/
theorem c6_placement_transform_matches_spec (env : Env β σ δ μ) (iCanvas : ICanvas σ δ μ)
    (hc : env.cosd 0 = 1) (hs : env.sind 0 = 0) (layer : LayerData β) (ctx : Affine) :
    transformLayer env iCanvas layer ctx = specPlacementTransform env iCanvas layer ctx
    ∧ (layer.tx = 0 → layer.ty = 0 → layer.sx = 1 → layer.sy = 1 → layer.rot = 0 →
        layer.flip_h = false → layer.flip_v = false →
        transformLayer env iCanvas layer ctx = ctx) := by
  constructor
  · have stepT : ∀ u : Affine,
        (if layer.tx ≠ 0 ∨ layer.ty ≠ 0 then u.translateBy layer.tx layer.ty else u)
          = u.translateBy layer.tx layer.ty := by
      intro u
      by_cases ht : layer.tx ≠ 0 ∨ layer.ty ≠ 0
      · rw [if_pos ht]
      · push_neg at ht
        rw [if_neg (by push_neg; exact ht), ht.1, ht.2, Affine.translateBy_zero]
    have stepR : ∀ u : Affine,
        (if layer.rot ≠ 0 then Affine.rotateBy env.cosd env.sind u layer.rot else u)
          = Affine.rotateBy env.cosd env.sind u layer.rot := by
      intro u
      by_cases hr : layer.rot ≠ 0
      · rw [if_pos hr]
      · rw [if_neg hr]
        push_neg at hr
        rw [hr, Affine.rotateBy_zero env.cosd env.sind hc hs]
    have stepS : ∀ u : Affine,
        (if layer.sx ≠ 1 ∨ layer.sy ≠ 1 then u.scaleBy layer.sx layer.sy else u)
          = u.scaleBy layer.sx layer.sy := by
      intro u
      by_cases hsc : layer.sx ≠ 1 ∨ layer.sy ≠ 1
      · rw [if_pos hsc]
      · push_neg at hsc
        rw [if_neg (by push_neg; exact hsc), hsc.1, hsc.2, Affine.scaleBy_one]
    have stepF : ∀ u : Affine,
        (if layer.flip_h ∨ layer.flip_v then
            u.scaleBy (if layer.flip_h then -1 else 1) (if layer.flip_v then -1 else 1)
          else u)
          = u.scaleBy (if layer.flip_h then -1 else 1) (if layer.flip_v then -1 else 1) := by
      intro u
      by_cases hf : (layer.flip_h : Prop) ∨ (layer.flip_v : Prop)
      · rw [if_pos hf]
      · have hf' := hf
        simp only [not_or, Bool.not_eq_true] at hf'
        rw [if_neg hf, hf'.1, hf'.2]
        simp [Affine.scaleBy_one]
    simp only [transformLayer, specPlacementTransform, stepT, stepR, stepS, stepF]
  · intro htx hty hsx hsy hrot hfh hfv
    simp [transformLayer, htx, hty, hsx, hsy, hrot, hfh, hfv]

/-- Witness for c6_placement_transform_matches_spec at the concrete
environment and an off-canvas placement. -/
theorem c6_placement_transform_matches_spec_witness :
    transformLayer envB iC4 ldOff Affine.idMat
      = specPlacementTransform envB iC4 ldOff Affine.idMat
    ∧ (ldOff.tx = 0 → ldOff.ty = 0 → ldOff.sx = 1 → ldOff.sy = 1 → ldOff.rot = 0 →
        ldOff.flip_h = false → ldOff.flip_v = false →
        transformLayer envB iC4 ldOff Affine.idMat = Affine.idMat) :=
  c6_placement_transform_matches_spec envB iC4 rfl rfl ldOff Affine.idMat

lemma linearGradientEndpoints_period (w h r : ℚ) (h0 : 0 ≤ r) (h45 : r ≤ 45) :
    linearGradientEndpoints w h (r + 360) = linearGradientEndpoints w h r := by
  unfold linearGradientEndpoints
  rw [if_neg (show ¬(0 ≤ r + 360 ∧ r + 360 < 45) by rintro ⟨-, hx⟩; linarith),
    if_neg (show ¬(45 ≤ r + 360 ∧ r + 360 < 135) by rintro ⟨-, hx⟩; linarith),
    if_neg (show ¬(135 ≤ r + 360 ∧ r + 360 < 225) by rintro ⟨-, hx⟩; linarith),
    if_neg (show ¬(225 ≤ r + 360 ∧ r + 360 < 315) by rintro ⟨-, hx⟩; linarith),
    if_pos (show (315:ℚ) ≤ r + 360 by linarith)]
  by_cases hlt : r < 45
  · rw [if_pos ⟨h0, hlt⟩]
    show some (0, h - h / 2 * (r + 360 - 315) / (360 - 315), w,
        h - (h - h / 2 * (r + 360 - 315) / (360 - 315)))
      = some (0, h / 2 * (45 - r) / 45, w, h - h / 2 * (45 - r) / 45)
    have e1 : h - h / 2 * (r + 360 - 315) / (360 - 315) = h / 2 * (45 - r) / 45 := by ring
    rw [e1]
  · have hr : r = 45 := le_antisymm h45 (not_lt.1 hlt)
    subst hr
    rw [if_neg (show ¬((0:ℚ) ≤ 45 ∧ (45:ℚ) < 45) by rintro ⟨-, hx⟩; linarith),
      if_pos (show (45:ℚ) ≤ 45 ∧ (45:ℚ) < 135 by norm_num)]
    show some (0, h - h / 2 * (45 + 360 - 315) / (360 - 315), w,
        h - (h - h / 2 * (45 + 360 - 315) / (360 - 315)))
      = some (w * (45 - 45) / (135 - 45), 0, w - w * (45 - 45) / (135 - 45), h)
    have e1 : h - h / 2 * (45 + 360 - 315) / (360 - 315) = 0 := by ring
    have e2 : w * (45 - 45) / (135 - 45) = 0 := by ring
    rw [e1, e2]
    norm_num

lemma linearGradientEndpoints_sector0 (w h : ℚ) :
    linearGradientEndpoints w h 0 = some (0, h / 2, w, h / 2) := by
  unfold linearGradientEndpoints
  rw [if_pos (show (0:ℚ) ≤ 0 ∧ (0:ℚ) < 45 by norm_num)]
  show some (0, h / 2 * (45 - 0) / 45, w, h - h / 2 * (45 - 0) / 45)
    = some (0, h / 2, w, h / 2)
  have e1 : h / 2 * (45 - 0) / 45 = h / 2 := by ring
  rw [e1]
  have e2 : h - h / 2 = h / 2 := by ring
  rw [e2]

lemma linearGradientEndpoints_sector45 (w h : ℚ) :
    linearGradientEndpoints w h 45 = some (0, 0, w, h) := by
  unfold linearGradientEndpoints
  rw [if_neg (show ¬((0:ℚ) ≤ 45 ∧ (45:ℚ) < 45) by rintro ⟨-, hx⟩; linarith),
    if_pos (show (45:ℚ) ≤ 45 ∧ (45:ℚ) < 135 by norm_num)]
  show some (w * (45 - 45) / (135 - 45), 0, w - w * (45 - 45) / (135 - 45), h)
    = some (0, 0, w, h)
  have e1 : w * (45 - 45) / (135 - 45) = 0 := by ring
  rw [e1]
  norm_num

lemma linearGradientEndpoints_sector135 (w h : ℚ) :
    linearGradientEndpoints w h 135 = some (w, 0, 0, h) := by
  unfold linearGradientEndpoints
  rw [if_neg (show ¬((0:ℚ) ≤ 135 ∧ (135:ℚ) < 45) by rintro ⟨-, hx⟩; linarith),
    if_neg (show ¬((45:ℚ) ≤ 135 ∧ (135:ℚ) < 135) by rintro ⟨-, hx⟩; linarith),
    if_pos (show (135:ℚ) ≤ 135 ∧ (135:ℚ) < 225 by norm_num)]
  show some (w, h * (135 - 135) / (225 - 135), 0, h - h * (135 - 135) / (225 - 135))
    = some (w, 0, 0, h)
  have e1 : h * (135 - 135) / (225 - 135) = 0 := by ring
  rw [e1]
  norm_num

lemma linearGradientEndpoints_sector225 (w h : ℚ) :
    linearGradientEndpoints w h 225 = some (w, h, 0, 0) := by
  unfold linearGradientEndpoints
  rw [if_neg (show ¬((0:ℚ) ≤ 225 ∧ (225:ℚ) < 45) by rintro ⟨-, hx⟩; linarith),
    if_neg (show ¬((45:ℚ) ≤ 225 ∧ (225:ℚ) < 135) by rintro ⟨-, hx⟩; linarith),
    if_neg (show ¬((135:ℚ) ≤ 225 ∧ (225:ℚ) < 225) by rintro ⟨-, hx⟩; linarith),
    if_pos (show (225:ℚ) ≤ 225 ∧ (225:ℚ) < 315 by norm_num)]
  show some (w * (1 - (225 - 225) / (315 - 225)), h, w - w * (1 - (225 - 225) / (315 - 225)), 0)
    = some (w, h, 0, 0)
  have e1 : w * (1 - (225 - 225) / (315 - 225)) = w := by ring
  rw [e1]
  norm_num

lemma linearGradientEndpoints_sector315 (w h : ℚ) :
    linearGradientEndpoints w h 315 = some (0, h, w, 0) := by
  unfold linearGradientEndpoints
  rw [if_neg (show ¬((0:ℚ) ≤ 315 ∧ (315:ℚ) < 45) by rintro ⟨-, hx⟩; linarith),
    if_neg (show ¬((45:ℚ) ≤ 315 ∧ (315:ℚ) < 135) by rintro ⟨-, hx⟩; linarith),
    if_neg (show ¬((135:ℚ) ≤ 315 ∧ (315:ℚ) < 225) by rintro ⟨-, hx⟩; linarith),
    if_neg (show ¬((225:ℚ) ≤ 315 ∧ (315:ℚ) < 315) by rintro ⟨-, hx⟩; linarith),
    if_pos (show (315:ℚ) ≤ 315 by norm_num)]
  show some (0, h - h / 2 * (315 - 315) / (360 - 315), w, h - (h - h / 2 * (315 - 315) / (360 - 315)))
    = some (0, h, w, 0)
  have e1 : h - h / 2 * (315 - 315) / (360 - 315) = h := by ring
  rw [e1]
  norm_num

/-- A linear-typed gradient spec generates the linear shape with the
endpoints of the normalized rotation, and the default stops. -/
lemma generateGradientForm_linear (w h ρ : ℚ) (s e : String) :
    generateGradientForm w h ⟨some linearType, some ρ, none, s, e⟩
      = ⟨.linear (linearGradientEndpoints w h (if ρ < 0 then ρ + 360 else ρ)),
          (0, s), (1, e)⟩ := by
  simp only [generateGradientForm, Option.getD_some, Option.getD_none]
  rw [if_neg (show ¬linearType = "" by decide),
    if_neg (show ¬linearType = radialType by decide)]

/-- C5 (amended): for rotations r with -360 ≤ r ≤ 45 the linear gradient
endpoints for r and r + 360 are identical (negative rotations are normalized
by adding 360; for 0 ≤ r ≤ 45 the unbounded final sector's formula extends
the first sector linearly), and at r = 0, 45, 135, 225, 315 the endpoints
land exactly on the corner/edge-midpoint values of the spec's sector
formulas (r = 0 yields (0,h/2)-(w,h/2)). -/
theorem c5_gradient_periodicity_and_sector_values (w h r : ℚ) (s e : String)
    (hlo : -360 ≤ r) (hhi : r ≤ 45) :
    generateGradientForm w h ⟨some linearType, some r, none, s, e⟩
      = generateGradientForm w h ⟨some linearType, some (r + 360), none, s, e⟩
    ∧ (generateGradientForm w h ⟨some linearType, some 0, none, s, e⟩).shape
        = .linear (some (0, h / 2, w, h / 2))
    ∧ (generateGradientForm w h ⟨some linearType, some 45, none, s, e⟩).shape
        = .linear (some (0, 0, w, h))
    ∧ (generateGradientForm w h ⟨some linearType, some 135, none, s, e⟩).shape
        = .linear (some (w, 0, 0, h))
    ∧ (generateGradientForm w h ⟨some linearType, some 225, none, s, e⟩).shape
        = .linear (some (w, h, 0, 0))
    ∧ (generateGradientForm w h ⟨some linearType, some 315, none, s, e⟩).shape
        = .linear (some (0, h, w, 0)) := by
  refine ⟨?_, ?_, ?_, ?_, ?_, ?_⟩
  · rw [generateGradientForm_linear, generateGradientForm_linear]
    by_cases hneg : r < 0
    · rw [if_pos hneg, if_neg (show ¬r + 360 < 0 by linarith)]
    · push_neg at hneg
      rw [if_neg (by push_neg; exact hneg), if_neg (show ¬r + 360 < 0 by linarith),
        linearGradientEndpoints_period w h r hneg hhi]
  · rw [generateGradientForm_linear]
    show GradientShape.linear (linearGradientEndpoints w h (if (0:ℚ) < 0 then 0 + 360 else 0)) = _
    rw [if_neg (show ¬(0:ℚ) < 0 by norm_num), linearGradientEndpoints_sector0]
  · rw [generateGradientForm_linear]
    show GradientShape.linear (linearGradientEndpoints w h (if (45:ℚ) < 0 then 45 + 360 else 45)) = _
    rw [if_neg (show ¬(45:ℚ) < 0 by norm_num), linearGradientEndpoints_sector45]
  · rw [generateGradientForm_linear]
    show GradientShape.linear (linearGradientEndpoints w h (if (135:ℚ) < 0 then 135 + 360 else 135)) = _
    rw [if_neg (show ¬(135:ℚ) < 0 by norm_num), linearGradientEndpoints_sector135]
  · rw [generateGradientForm_linear]
    show GradientShape.linear (linearGradientEndpoints w h (if (225:ℚ) < 0 then 225 + 360 else 225)) = _
    rw [if_neg (show ¬(225:ℚ) < 0 by norm_num), linearGradientEndpoints_sector225]
  · rw [generateGradientForm_linear]
    show GradientShape.linear (linearGradientEndpoints w h (if (315:ℚ) < 0 then 315 + 360 else 315)) = _
    rw [if_neg (show ¬(315:ℚ) < 0 by norm_num), linearGradientEndpoints_sector315]

/-- Witness for c5_gradient_periodicity_and_sector_values at w = 90, h = 90,
r = 10. -/
theorem c5_gradient_periodicity_and_sector_values_witness :
    generateGradientForm 90 90 ⟨some linearType, some 10, none, srcOver, srcOver⟩
      = generateGradientForm 90 90 ⟨some linearType, some (10 + 360), none, srcOver, srcOver⟩
    ∧ (generateGradientForm 90 90 ⟨some linearType, some 0, none, srcOver, srcOver⟩).shape
        = .linear (some (0, 90 / 2, 90, 90 / 2))
    ∧ (generateGradientForm 90 90 ⟨some linearType, some 45, none, srcOver, srcOver⟩).shape
        = .linear (some (0, 0, 90, 90))
    ∧ (generateGradientForm 90 90 ⟨some linearType, some 135, none, srcOver, srcOver⟩).shape
        = .linear (some (90, 0, 0, 90))
    ∧ (generateGradientForm 90 90 ⟨some linearType, some 225, none, srcOver, srcOver⟩).shape
        = .linear (some (90, 90, 0, 0))
    ∧ (generateGradientForm 90 90 ⟨some linearType, some 315, none, srcOver, srcOver⟩).shape
        = .linear (some (0, 90, 90, 0)) :=
  c5_gradient_periodicity_and_sector_values 90 90 10 srcOver srcOver
    (by norm_num) (by norm_num)

/-- C5 (counterexample to the claim as stated): at w = h = 90 the rotations
100 and 100 + 360 = 460 produce different endpoints — 460 falls into the
unbounded final sector, whose formula does not agree with the second sector,
so the generator is not 360-periodic on all valid rotations. -/
theorem c5_counterexample :
    generateGradientForm 90 90 ⟨some linearType, some 100, none, srcOver, srcOver⟩
      ≠ generateGradientForm 90 90 ⟨some linearType, some 460, none, srcOver, srcOver⟩ := by
  rw [generateGradientForm_linear, generateGradientForm_linear]
  intro hcontra
  have hsh := congrArg GradientForm.shape hcontra
  simp only at hsh
  rw [if_neg (show ¬(100:ℚ) < 0 by norm_num), if_neg (show ¬(460:ℚ) < 0 by norm_num)] at hsh
  have h100 : linearGradientEndpoints 90 90 100 = some (55, 0, 35, 90) := by
    unfold linearGradientEndpoints
    rw [if_neg (show ¬((0:ℚ) ≤ 100 ∧ (100:ℚ) < 45) by rintro ⟨-, hx⟩; linarith),
      if_pos (show (45:ℚ) ≤ 100 ∧ (100:ℚ) < 135 by norm_num)]
    norm_num
  have h460 : linearGradientEndpoints 90 90 460 = some (0, -55, 90, 145) := by
    unfold linearGradientEndpoints
    rw [if_neg (show ¬((0:ℚ) ≤ 460 ∧ (460:ℚ) < 45) by rintro ⟨-, hx⟩; linarith),
      if_neg (show ¬((45:ℚ) ≤ 460 ∧ (460:ℚ) < 135) by rintro ⟨-, hx⟩; linarith),
      if_neg (show ¬((135:ℚ) ≤ 460 ∧ (460:ℚ) < 225) by rintro ⟨-, hx⟩; linarith),
      if_neg (show ¬((225:ℚ) ≤ 460 ∧ (460:ℚ) < 315) by rintro ⟨-, hx⟩; linarith),
      if_pos (show (315:ℚ) ≤ 460 by norm_num)]
    norm_num
  rw [h100, h460] at hsh
  simp at hsh

lemma specRuns_join (classify : α → Bool) :
    ∀ xs : List α, (specRuns classify xs).flatMap Prod.snd = xs
  | [] => rfl
  | a :: rest => by
    have ih := specRuns_join classify rest
    rw [specRuns]
    cases hs : specRuns classify rest with
    | nil =>
      rw [hs] at ih
      simp at ih
      simp [ih]
    | cons p more =>
      obtain ⟨b, grp⟩ := p
      rw [hs] at ih
      dsimp only
      by_cases hab : classify a = b
      · rw [if_pos hab]
        simp only [List.flatMap_cons] at ih ⊢
        rw [List.cons_append, ih]
      · rw [if_neg hab]
        simp only [List.flatMap_cons] at ih ⊢
        rw [List.singleton_append, ih]

lemma specRuns_groups (classify : α → Bool) :
    ∀ xs : List α, ∀ r ∈ specRuns classify xs, r.2 ≠ [] ∧ ∀ x ∈ r.2, classify x = r.1
  | [], r, hr => absurd hr (by simp [specRuns])
  | a :: rest, r, hr => by
    have ih := specRuns_groups classify rest
    rw [specRuns] at hr
    cases hs : specRuns classify rest with
    | nil =>
      rw [hs] at hr
      simp at hr
      subst hr
      exact ⟨by simp, by simp⟩
    | cons p more =>
      obtain ⟨b, grp⟩ := p
      rw [hs] at hr
      dsimp only at hr
      by_cases hab : classify a = b
      · rw [if_pos hab] at hr
        rcases List.mem_cons.1 hr with rfl | hr'
        · refine ⟨by simp, ?_⟩
          intro x hx
          rcases List.mem_cons.1 hx with rfl | hx'
          · exact hab
          · exact (ih (b, grp) (by rw [hs]; exact List.mem_cons_self _ _)).2 x hx'
        · exact ih r (by rw [hs]; exact List.mem_cons_of_mem _ hr')
      · rw [if_neg hab] at hr
        rcases List.mem_cons.1 hr with rfl | hr'
        · exact ⟨by simp, by simp⟩
        · exact ih r (by rw [hs]; exact hr')

lemma specRuns_chain (classify : α → Bool) :
    ∀ xs : List α, List.Chain' (fun p q : Bool × List α => p.1 ≠ q.1) (specRuns classify xs)
  | [] => by simp [specRuns]
  | a :: rest => by
    have ih := specRuns_chain classify rest
    rw [specRuns]
    cases hs : specRuns classify rest with
    | nil => simp
    | cons p more =>
      obtain ⟨b, grp⟩ := p
      rw [hs] at ih
      dsimp only
      by_cases hab : classify a = b
      · rw [if_pos hab]
        rw [List.chain'_cons'] at ih ⊢
        exact ⟨ih.1, ih.2⟩
      · rw [if_neg hab]
        exact List.Chain'.cons hab ih

lemma specRuns_const_true (classify : α → Bool) :
    ∀ xs : List α, xs ≠ [] → (∀ x ∈ xs, classify x = true) →
      specRuns classify xs = [(true, xs)]
  | [], hne, _ => absurd rfl hne
  | [a], _, hall => by simp [specRuns, hall a (by simp)]
  | a :: a2 :: rest2, _, hall => by
    have ih := specRuns_const_true classify (a2 :: rest2) (by simp)
      (fun x hx => hall x (List.mem_cons_of_mem _ hx))
    rw [specRuns, ih]
    dsimp only
    rw [hall a (List.mem_cons_self _ _), if_pos rfl]

lemma mergeRuns_eq_aux (tbl : String → Option Bool) (classify : LayerData β → Bool) :
    ∀ (rest : List (LayerData β)) (b : Bool) (cur : List (LayerData β)),
      (∀ x ∈ rest, tbl x.blendmode = some (classify x)) →
      mergeRuns tbl (some b) cur rest = specMergeInto b cur (specRuns classify rest)
  | [], b, cur, _ => by simp [mergeRuns, pushList, specRuns, specMergeInto]
  | layer :: rest, b, cur, h => by
    have hl : tbl layer.blendmode = some (classify layer) :=
      h layer (List.mem_cons_self _ _)
    have hrest : ∀ x ∈ rest, tbl x.blendmode = some (classify x) :=
      fun x hx => h x (List.mem_cons_of_mem _ hx)
    rw [mergeRuns, hl]
    by_cases hbc : b = classify layer
    · subst hbc
      rw [if_neg (by simp),
        mergeRuns_eq_aux tbl classify rest (classify layer) (cur ++ [layer]) hrest,
        specRuns]
      cases hs : specRuns classify rest with
      | nil => simp [specMergeInto]
      | cons p more =>
        obtain ⟨c2, g⟩ := p
        by_cases h2 : classify layer = c2
        · simp [specMergeInto, h2]
        · simp [specMergeInto, h2]
    · rw [if_pos (Or.inr (by simp [hbc])), pushList,
        mergeRuns_eq_aux tbl classify rest (classify layer) [layer] hrest,
        specRuns]
      cases hs : specRuns classify rest with
      | nil => simp [specMergeInto, hbc]
      | cons p more =>
        obtain ⟨c2, g⟩ := p
        by_cases h2 : classify layer = c2
        · have hb2 : ¬b = c2 := h2 ▸ hbc
          simp [specMergeInto, h2, hb2, hbc]
        · simp [specMergeInto, h2, hbc]

lemma buildRuns_eq_specRuns (tbl : String → Option Bool) (classify : LayerData β → Bool)
    (rest : List (LayerData β)) (h : ∀ x ∈ rest, tbl x.blendmode = some (classify x)) :
    buildRuns tbl rest = specRuns classify rest := by
  cases rest with
  | nil => simp [buildRuns, mergeRuns, pushList, specRuns]
  | cons layer rest =>
    have hl : tbl layer.blendmode = some (classify layer) :=
      h layer (List.mem_cons_self _ _)
    have hrest : ∀ x ∈ rest, tbl x.blendmode = some (classify x) :=
      fun x hx => h x (List.mem_cons_of_mem _ hx)
    rw [buildRuns, mergeRuns, hl, if_pos (Or.inl rfl), pushList,
      mergeRuns_eq_aux tbl classify rest (classify layer) [layer] hrest,
      specRuns]
    cases hs : specRuns classify rest with
    | nil => simp [specMergeInto]
    | cons p more =>
      obtain ⟨c2, g⟩ := p
      by_cases h2 : classify layer = c2
      · simp [specMergeInto, h2]
      · simp [specMergeInto, h2]

lemma mergeRuns_join (tbl : String → Option Bool) :
    ∀ (rest : List (LayerData β)) (u : Option Bool) (cur : List (LayerData β)),
      (mergeRuns tbl u cur rest).flatMap Prod.snd
        = (match u with | some _ => cur | none => ([] : List (LayerData β)))
            ++ rest.filter (fun y => (tbl y.blendmode).isSome)
  | [], u, cur => by
    cases u <;> simp [mergeRuns, pushList]
  | layer :: rest, u, cur => by
    rw [mergeRuns]
    by_cases hc : u = none ∨ u ≠ tbl layer.blendmode
    · rw [if_pos hc]
      cases u with
      | none =>
        rw [pushList, mergeRuns_join tbl rest (tbl layer.blendmode) [layer]]
        cases hm : tbl layer.blendmode with
        | none => simp [List.filter_cons, hm]
        | some b => simp [List.filter_cons, hm]
      | some b =>
        rw [pushList]
        simp only [List.flatMap_cons]
        rw [mergeRuns_join tbl rest (tbl layer.blendmode) [layer]]
        cases hm : tbl layer.blendmode with
        | none => simp [List.filter_cons, hm]
        | some b2 => simp [List.filter_cons, hm]
    · push_neg at hc
      obtain ⟨hne, heq⟩ := hc
      rw [if_neg (by push_neg; exact ⟨hne, heq⟩)]
      rw [mergeRuns_join tbl rest (tbl layer.blendmode) (cur ++ [layer])]
      rw [← heq]
      cases u with
      | none => exact absurd rfl hne
      | some b => simp [List.filter_cons, ← heq]

lemma buildRuns_join (tbl : String → Option Bool) (rest : List (LayerData β)) :
    (buildRuns tbl rest).flatMap Prod.snd
      = rest.filter (fun y => (tbl y.blendmode).isSome) := by
  rw [buildRuns, mergeRuns_join tbl rest none []]
  rfl

lemma mergeRuns_mem_cap (tbl : String → Option Bool) :
    ∀ (rest : List (LayerData β)) (u : Option Bool) (cur : List (LayerData β)),
      (∀ x ∈ cur, tbl x.blendmode = u) →
      ∀ r ∈ mergeRuns tbl u cur rest, ∀ x ∈ r.2, tbl x.blendmode = some r.1
  | [], u, cur, hcur, r, hr => by
    cases u with
    | none => simp [mergeRuns, pushList] at hr
    | some b =>
      simp only [mergeRuns, pushList, List.mem_singleton] at hr
      subst hr
      exact fun x hx => hcur x hx
  | layer :: rest, u, cur, hcur, r, hr => by
    rw [mergeRuns] at hr
    by_cases hc : u = none ∨ u ≠ tbl layer.blendmode
    · rw [if_pos hc] at hr
      cases u with
      | none =>
        rw [pushList] at hr
        exact mergeRuns_mem_cap tbl rest (tbl layer.blendmode) [layer]
          (by simp) r hr
      | some b =>
        rw [pushList] at hr
        rcases List.mem_cons.1 hr with rfl | hr'
        · exact fun x hx => hcur x hx
        · exact mergeRuns_mem_cap tbl rest (tbl layer.blendmode) [layer]
            (by simp) r hr'
    · push_neg at hc
      obtain ⟨hne, heq⟩ := hc
      rw [if_neg (by push_neg; exact ⟨hne, heq⟩)] at hr
      refine mergeRuns_mem_cap tbl rest (tbl layer.blendmode) (cur ++ [layer]) ?_ r hr
      intro x hx
      rcases List.mem_append.1 hx with hx' | hx'
      · exact (hcur x hx').trans heq
      · rw [List.mem_singleton] at hx'
        subst hx'
        rfl

lemma manualLoop_error_mode (env : Env β σ δ μ) (iCanvas : ICanvas σ δ μ) (w h : ℚ) :
    ∀ (layers : List (LayerData β)) (i : Nat) (base out : β) (e : JsError),
      manualLoop env iCanvas w h layers i base out = .error e →
      ∃ y ∈ layers, e = .noSuchBlendMode y.blendmode ∧ env.blend y.blendmode = none
  | [], i, base, out, e, he => by simp [manualLoop] at he
  | layer :: rest, i, base, out, e, he => by
    rw [manualLoop] at he
    by_cases hrect : 0 < (calcLayerRect env iCanvas layer).width ∧
        0 < (calcLayerRect env iCanvas layer).height
    · rw [if_pos hrect] at he
      cases hbl : env.blend layer.blendmode with
      | none =>
        rw [hbl] at he
        exact ⟨layer, List.mem_cons_self _ _, by simpa using he.symm, hbl⟩
      | some fb =>
        rw [hbl] at he
        rcases manualLoop_error_mode env iCanvas w h rest (i + 1) _ _ e he with
          ⟨y, hy, hye, hyb⟩
        exact ⟨y, List.mem_cons_of_mem _ hy, hye, hyb⟩
    · rw [if_neg hrect] at he
      rcases manualLoop_error_mode env iCanvas w h rest (i + 1) base out e he with
        ⟨y, hy, hye, hyb⟩
      exact ⟨y, List.mem_cons_of_mem _ hy, hye, hyb⟩

lemma mergeManualBlend_error_mode (env : Env β σ δ μ) (iCanvas : ICanvas σ δ μ)
    (layers : List (LayerData β)) (canvas : Buffer β) (e : JsError)
    (he : mergeManualBlend env iCanvas layers canvas = .error e) :
    ∃ y ∈ layers, e = .noSuchBlendMode y.blendmode ∧ env.blend y.blendmode = none := by
  rw [mergeManualBlend] at he
  cases hl : manualLoop env iCanvas iCanvas.width iCanvas.height layers 0 canvas.data
      (createImageDataAt env canvas.data iCanvas.width iCanvas.height) with
  | error e2 =>
    rw [hl] at he
    cases he
    exact manualLoop_error_mode env iCanvas iCanvas.width iCanvas.height layers 0 _ _ e hl
  | ok out =>
    rw [hl] at he
    cases he

lemma runPipe_error (env : Env β σ δ μ) (iCanvas : ICanvas σ δ μ) :
    ∀ (runs : List (Bool × List (LayerData β))) (canvas : Buffer β) (e : JsError),
      runPipe env iCanvas runs canvas = .error e →
      ∃ r ∈ runs, ∃ c : Buffer β, applyRun env iCanvas c r = .error e
  | [], canvas, e, he => by simp [runPipe] at he
  | run :: rest, canvas, e, he => by
    rw [runPipe] at he
    cases ha : applyRun env iCanvas canvas run with
    | error e2 =>
      rw [ha] at he
      cases he
      exact ⟨run, List.mem_cons_self _ _, canvas, ha⟩
    | ok c =>
      rw [ha] at he
      rcases runPipe_error env iCanvas rest c e he with ⟨r, hr, c2, hc2⟩
      exact ⟨r, List.mem_cons_of_mem _ hr, c2, hc2⟩

/-- C1: for a layer list of two or more placements, merge draws the
bottommost placement directly (transform + opacity, via
singleLayerWithOpacity) to seed the output buffer and then composites the
capability runs sequentially, each run's output the next run's input; the
runs built from the remaining placements are exactly the spec's maximal
contiguous runs of equal native-blend capability (nonempty,
capability-homogeneous, adjacent runs of distinct capability), their
concatenation is the non-base list in original order, and when every
non-base blendmode is native-capable there is exactly one native run
covering the whole non-base list. -/
theorem c1_blend_compositor_run_structure (env : Env β σ δ μ) (iCanvas : ICanvas σ δ μ)
    (base : LayerData β) (rest : List (LayerData β)) (classify : LayerData β → Bool)
    (hne : rest ≠ [])
    (hcap : ∀ x ∈ rest, env.nativeModes x.blendmode = some (classify x)) :
    merge env iCanvas (base :: rest)
      = runPipe env iCanvas (buildRuns env.nativeModes rest)
          (singleLayerWithOpacity env iCanvas base)
    ∧ buildRuns env.nativeModes rest = specRuns classify rest
    ∧ (buildRuns env.nativeModes rest).flatMap Prod.snd = rest
    ∧ (∀ r ∈ specRuns classify rest, r.2 ≠ [] ∧ ∀ x ∈ r.2, classify x = r.1)
    ∧ List.Chain' (fun p q : Bool × List (LayerData β) => p.1 ≠ q.1) (specRuns classify rest)
    ∧ ((∀ x ∈ rest, env.nativeModes x.blendmode = some true)
        → buildRuns env.nativeModes rest = [(true, rest)]) := by
  have hbr := buildRuns_eq_specRuns env.nativeModes classify rest hcap
  refine ⟨rfl, hbr, ?_, specRuns_groups classify rest, specRuns_chain classify rest, ?_⟩
  · rw [hbr, specRuns_join]
  · intro hall
    rw [buildRuns_eq_specRuns env.nativeModes (fun _ => true) rest hall,
      specRuns_const_true _ rest hne (fun _ _ => rfl)]

/-- Witness for c1_blend_compositor_run_structure on a three-placement list
whose non-base capabilities are native ('screen') then manual ('multiply'). -/
theorem c1_blend_compositor_run_structure_witness :
    merge envB iC4 (ldBase :: [ldScreen, ldMult])
      = runPipe envB iC4 (buildRuns envB.nativeModes [ldScreen, ldMult])
          (singleLayerWithOpacity envB iC4 ldBase)
    ∧ buildRuns envB.nativeModes [ldScreen, ldMult] = specRuns classifyB [ldScreen, ldMult]
    ∧ (buildRuns envB.nativeModes [ldScreen, ldMult]).flatMap Prod.snd = [ldScreen, ldMult]
    ∧ (∀ r ∈ specRuns classifyB [ldScreen, ldMult],
        r.2 ≠ [] ∧ ∀ x ∈ r.2, classifyB x = r.1)
    ∧ List.Chain' (fun p q : Bool × List (LayerData Bool) => p.1 ≠ q.1)
        (specRuns classifyB [ldScreen, ldMult])
    ∧ ((∀ x ∈ [ldScreen, ldMult], envB.nativeModes x.blendmode = some true)
        → buildRuns envB.nativeModes [ldScreen, ldMult] = [(true, [ldScreen, ldMult])]) :=
  c1_blend_compositor_run_structure envB iC4 ldBase [ldScreen, ldMult] classifyB
    (by simp) (by decide)

/-- C9: when a non-base placement's blendmode is absent from the native-blend
capability table (lookup yields neither true nor false), the run-building
loop never appends the run containing it: the runs' concatenation is exactly
the non-base placements whose capability lookup is defined, so the placement
is silently omitted from the composite, and merge never raises a
NoSuchBlendMode error for that placement's blendmode. -/
theorem c9_undefined_capability_omitted (env : Env β σ δ μ) (iCanvas : ICanvas σ δ μ)
    (base x : LayerData β) (rest : List (LayerData β))
    (_hx : x ∈ rest) (hundef : env.nativeModes x.blendmode = none) :
    (buildRuns env.nativeModes rest).flatMap Prod.snd
        = rest.filter (fun y => (env.nativeModes y.blendmode).isSome)
    ∧ x ∉ (buildRuns env.nativeModes rest).flatMap Prod.snd
    ∧ merge env iCanvas (base :: rest) ≠ .error (.noSuchBlendMode x.blendmode) := by
  refine ⟨buildRuns_join env.nativeModes rest, ?_, ?_⟩
  · rw [buildRuns_join]
    simp [List.mem_filter, hundef]
  · intro hcontra
    rw [merge] at hcontra
    rcases runPipe_error env iCanvas _ _ _ hcontra with ⟨run, hrun, c, hc⟩
    rw [applyRun] at hc
    by_cases hnat : run.1 = true
    · rw [if_pos hnat] at hc
      cases hc
    · rw [if_neg hnat] at hc
      rcases mergeManualBlend_error_mode env iCanvas run.2 c _ hc with ⟨y, hy, hye, hyb⟩
      rw [buildRuns] at hrun
      have hcap := mergeRuns_mem_cap env.nativeModes rest none [] (by simp) run hrun y hy
      have hxy : x.blendmode = y.blendmode := by
        injection hye
      rw [← hxy, hundef] at hcap
      cases hcap

/-- Witness for c9_undefined_capability_omitted with the 'mystery' placement
whose capability lookup is undefined. -/
theorem c9_undefined_capability_omitted_witness :
    (buildRuns envB.nativeModes [ldScreen, ldOn]).flatMap Prod.snd
        = [ldScreen, ldOn].filter (fun y => (envB.nativeModes y.blendmode).isSome)
    ∧ ldOn ∉ (buildRuns envB.nativeModes [ldScreen, ldOn]).flatMap Prod.snd
    ∧ merge envB iC4 (ldBase :: [ldScreen, ldOn])
        ≠ .error (.noSuchBlendMode ldOn.blendmode) :=
  c9_undefined_capability_omitted envB iC4 ldBase ldOn [ldScreen, ldOn]
    (by simp) (by decide)
